import Mathlib

/-!
Verification development for the starlette_jsonapi library.

Shallow embedding of the library's error taxonomy (`exceptions.py`),
error serialization (`utils.py`, `responses.py`), per-request lifecycle
(`resource.py`, `_BaseResourceHandler.handle_request`), body validation
(`resource.py`), route registration (`resource.py`), sparse-field
processing (`utils.py`) and pagination (`pagination.py`,
`tests/test_pagination.py`).

Python dictionaries are modelled as association lists that preserve
insertion order; Python truthiness of a list/dict is modelled by
non-emptiness; raised exceptions are modelled with `Except`/`Option`.
-/

namespace StarletteJsonapi

/-- A json:api error object (a Python dict such as `{'detail': msg}`),
modelled as an association list from keys to string values. -/
abbrev ErrorObj := List (String × String)

/-- Models Python `http.HTTPStatus(status_code).phrase` for the status
codes produced by this library (see starlette's `HTTPException.__init__`,
which uses it when `detail` is `None`). Codes outside the table map to an
empty phrase; the library only constructs the listed ones. -/
def httpStatusPhrase (c : Nat) : String :=
  if c = 200 then "OK"
  else if c = 201 then "Created"
  else if c = 204 then "No Content"
  else if c = 400 then "Bad Request"
  else if c = 404 then "Not Found"
  else if c = 405 then "Method Not Allowed"
  else if c = 500 then "Internal Server Error"
  else ""

/-- The observable state of a `JSONAPIException` right after
`JSONAPIException.__init__` (exceptions.py lines 9-41) returns:
its status code, its detail string, its `errors` list, and whether
`self.errors` is the very list object passed by the caller
(Python `errors or []` reuses a truthy caller list). -/
structure JSONAPIExceptionModel where
  status_code : Nat
  detail : String
  errors : List ErrorObj
  aliasesCallerErrors : Bool
  deriving Repr, DecidableEq

/-- Models `JSONAPIException.__init__` (exceptions.py lines 9-41):
`super().__init__(status_code, detail=detail)` makes `self.detail` the
HTTP status phrase when `detail` is `None`; then
`self.errors = errors or []` followed by
`self.errors.append({'detail': self.detail})`.
`aliasesCallerErrors` records whether `errors or []` evaluated to the
caller's own list (true exactly when the caller passed a non-empty list),
in which case the `append` mutates the caller's list in place. -/
def JSONAPIException.init (status_code : Nat) (detail : Option String)
    (errors : Option (List ErrorObj)) : JSONAPIExceptionModel :=
  let d := match detail with
    | some s => s
    | none => httpStatusPhrase status_code
  let base := match errors with
    | some l => if l.isEmpty then [] else l
    | none => []
  { status_code := status_code
    detail := d
    errors := base ++ [[("detail", d)]]
    aliasesCallerErrors := match errors with
      | some l => !l.isEmpty
      | none => false }

/-- Models `ResourceNotFound.__init__` (exceptions.py lines 43-52):
`detail` falls back to the class attribute `'Resource object not found.'`
and `errors=None` is always passed to the base constructor. -/
def ResourceNotFound.init (status_code : Nat) (detail : Option String) :
    JSONAPIExceptionModel :=
  JSONAPIException.init status_code
    (some (match detail with
      | some d => d
      | none => "Resource object not found."))
    none

/-- The exception taxonomy seen by `serialize_error` (utils.py lines 12-30):
a constructed `JSONAPIException`, any other starlette `HTTPException`
(carrying a status code and a detail string), or any other Python
exception (carrying only an informal description). -/
inductive Exc where
  | jsonapi (e : JSONAPIExceptionModel)
  | http (status_code : Nat) (detail : String)
  | other (info : String)
  deriving Repr, DecidableEq

/-- The `media_type` class attribute of `JSONAPIResponse`
(responses.py line 12). -/
def JSONAPIResponse.media_type : String := "application/vnd.api+json"

/-- An HTTP response produced by `serialize_error`: a `JSONAPIResponse`
whose body is `{'errors': errors}` and whose media type comes from the
`JSONAPIResponse` class. -/
structure ErrorResponseModel where
  status_code : Nat
  errors : List ErrorObj
  media_type : String
  deriving Repr, DecidableEq

/-- Models `serialize_error` (utils.py lines 12-30): a `JSONAPIException`
keeps its own status code and errors list; any other `HTTPException`
keeps its status code with errors `[{'detail': exc.detail}]`; anything
else becomes status 500 with errors `[{'detail': 'Internal server error'}]`.
The body is always `{'errors': errors}` inside a `JSONAPIResponse`. -/
def serialize_error : Exc → ErrorResponseModel
  | .jsonapi e =>
    { status_code := e.status_code, errors := e.errors
      media_type := JSONAPIResponse.media_type }
  | .http s d =>
    { status_code := s, errors := [[("detail", d)]]
      media_type := JSONAPIResponse.media_type }
  | .other _ =>
    { status_code := 500, errors := [[("detail", "Internal server error")]]
      media_type := JSONAPIResponse.media_type }

/-- A starlette response as seen by the request lifecycle: either a
normal response produced by a handler, or an error response produced by
`serialize_error`. -/
inductive Resp where
  | normal (info : String)
  | error (r : ErrorResponseModel)
  deriving Repr, DecidableEq

/-- Models `_BaseResourceHandler.handle_error` (resource.py lines 76-90):
logs non-HTTP exceptions, then returns `serialize_error(exc)`. -/
def handle_error (exc : Exc) : Resp := .error (serialize_error exc)

/-- The observable outcome of one `handle_request` call: the response
that is returned, whether the named handler was invoked, and whether the
`after_request` hook ran. -/
structure LifecycleTrace where
  response : Resp
  handlerRan : Bool
  afterRan : Bool
  deriving Repr, DecidableEq

/-- Models `_BaseResourceHandler.handle_request` (resource.py lines
109-148). `before` is the outcome of the `before_request` hook;
`methodAllowed` is `request.method in cls.allowed_methods`; `handler` is
the outcome of invoking the named handler (only reached when the method
is allowed); `after` is the outcome of the `after_request` hook, as a
function of the response it receives. If `before_request` raises, the
error is serialized and neither the handler nor `after_request` runs;
a disallowed method raises `JSONAPIException(status_code=405)` inside
the same `try`; any handler-stage exception is serialized into the
response and `after_request` still runs; if `after_request` raises, its
serialized error replaces the response. -/
def handle_request (before : Except Exc Unit) (methodAllowed : Bool)
    (handler : Except Exc Resp) (after : Resp → Except Exc Unit) :
    LifecycleTrace :=
  match before with
  | .error e =>
    { response := handle_error e, handlerRan := false, afterRan := false }
  | .ok _ =>
    let handlerResponse : Resp :=
      if !methodAllowed then
        handle_error (.jsonapi (JSONAPIException.init 405 none none))
      else
        match handler with
        | .ok r => r
        | .error e => handle_error e
    match after handlerResponse with
    | .ok _ =>
      { response := handlerResponse, handlerRan := methodAllowed
        afterRan := true }
    | .error e =>
      { response := handle_error e, handlerRan := methodAllowed
        afterRan := true }

/-- Models the default `BaseResource.get` handler (resource.py lines
258-260): raises `JSONAPIException(status_code=405)`. -/
def BaseResource.get : Except Exc Resp :=
  .error (.jsonapi (JSONAPIException.init 405 none none))

/-- Models the default `BaseResource.patch` handler (resource.py lines
262-264): raises `JSONAPIException(status_code=405)`. -/
def BaseResource.patch : Except Exc Resp :=
  .error (.jsonapi (JSONAPIException.init 405 none none))

/-- Models the default `BaseResource.delete` handler (resource.py lines
266-268): raises `JSONAPIException(status_code=405)`. -/
def BaseResource.delete : Except Exc Resp :=
  .error (.jsonapi (JSONAPIException.init 405 none none))

/-- Models the default `BaseResource.get_many` handler (resource.py lines
270-272): raises `JSONAPIException(status_code=405)`. -/
def BaseResource.get_many : Except Exc Resp :=
  .error (.jsonapi (JSONAPIException.init 405 none none))

/-- Models the default `BaseResource.post` handler (resource.py lines
274-276): raises `JSONAPIException(status_code=405)`. -/
def BaseResource.post : Except Exc Resp :=
  .error (.jsonapi (JSONAPIException.init 405 none none))

/-- Models the default `BaseResource.get_related` handler (resource.py
lines 278-288): raises `JSONAPIException(status_code=405)`. -/
def BaseResource.get_related : Except Exc Resp :=
  .error (.jsonapi (JSONAPIException.init 405 none none))

/-- The request state read by body validation: the HTTP method, the value
of `request.headers.get('content-type')`, and the result of
`await self.request.json()` (an `Except.error` models a body that is not
JSON-parseable). -/
structure RequestModel (Body : Type) where
  method : String
  contentType : Option String
  jsonBody : Except Unit Body

/-- The fixed 400 exception raised by `BaseResource.validate_body`
(resource.py lines 329-334) and `BaseRelationshipResource.deserialize_ids`
(resource.py lines 602-607) on a missing or mismatching Content-Type
header. -/
def contentTypeError : JSONAPIExceptionModel :=
  JSONAPIException.init 400
    (some "Incorrect or missing Content-Type header, expected `application/vnd.api+json`.")
    none

/-- Models `BaseResource.validate_body` (resource.py lines 318-345):
POST/PATCH requests whose Content-Type header differs from
`application/vnd.api+json` raise the fixed 400 exception before the body
is read; an unreadable JSON body raises 400
`'Could not read request body as JSON.'`; schema validation errors
(`validate` returns the list under the `errors` key of
`schema.validate(body)`, empty meaning valid) raise 400 with those
errors; otherwise the raw body dict is returned. -/
def validate_body {Body : Type} (req : RequestModel Body)
    (validate : Body → List ErrorObj) : Except JSONAPIExceptionModel Body :=
  if (req.method = "POST" ∨ req.method = "PATCH") ∧
      req.contentType ≠ some "application/vnd.api+json" then
    .error contentTypeError
  else
    match req.jsonBody with
    | .error _ =>
      .error (JSONAPIException.init 400 (some "Could not read request body as JSON.") none)
    | .ok body =>
      match validate body with
      | [] => .ok body
      | e :: rest => .error (JSONAPIException.init 400 none (some (e :: rest)))

/-- Models `BaseResource.deserialize_body` (resource.py lines 305-316):
`validate_body` followed by `schema.load` (modelled by `load`) on the raw
body. -/
def deserialize_body {Body γ : Type} (req : RequestModel Body)
    (validate : Body → List ErrorObj) (load : Body → γ) :
    Except JSONAPIExceptionModel γ :=
  match validate_body req validate with
  | .error e => .error e
  | .ok b => .ok (load b)

/-- Models `BaseRelationshipResource.deserialize_ids` (resource.py lines
596-625): the same Content-Type check as `validate_body` with the same
fixed 400 exception; an unreadable body raises 400
`'Could not read request body.'`; the relationship field's deserializer
(`relDeserialize`, whose `Except.error` carries the `ValidationError`
messages list) surfaces its messages as `{'detail': message}` error
objects in a 400 exception. -/
def deserialize_ids {Body Ids : Type} (req : RequestModel Body)
    (relDeserialize : Body → Except (List String) Ids) :
    Except JSONAPIExceptionModel Ids :=
  if (req.method = "POST" ∨ req.method = "PATCH") ∧
      req.contentType ≠ some "application/vnd.api+json" then
    .error contentTypeError
  else
    match req.jsonBody with
    | .error _ =>
      .error (JSONAPIException.init 400 (some "Could not read request body.") none)
    | .ok body =>
      match relDeserialize body with
      | .ok ids => .ok ids
      | .error msgs =>
        .error (JSONAPIException.init 400 none
          (some (msgs.map (fun m => [("detail", m)]))))

/-- A related resource class, as resolved through
`field.related_resource_class` (fields.py lines 136-141); only its
`id_mask` class attribute is read during route registration. -/
structure RelatedClassModel where
  id_mask : String
  deriving Repr, DecidableEq

/-- A field declared on the resource schema (`cls.schema.get_fields()`):
its name, whether it is a `JSONAPIRelationship`, and, when its
`related_resource` attribute is truthy, the resolved related resource
class. -/
structure FieldModel where
  name : String
  isRelationship : Bool
  relatedClass : Option RelatedClassModel
  deriving Repr, DecidableEq

/-- The class-level declaration of a `BaseResource` subclass as read by
`register_routes` (resource.py lines 426-530): `type_`, the schema's
declared fields (`none` models a falsy `schema`), `id_mask` and
`register_as`. -/
structure ResourceModel where
  type_ : String
  schemaFields : Option (List FieldModel)
  id_mask : String
  register_as : String
  deriving Repr, DecidableEq

/-- A starlette `Route` as built by `register_routes`: its path template,
HTTP methods, route name, the handler name bound through
`functools.partial(cls.handle_request, handler, ...)`, and the
`extract_params` list bound alongside it. -/
structure RouteModel where
  path : String
  methods : List String
  name : String
  handler : String
  extract_params : List String
  deriving Repr, DecidableEq

/-- The starlette `Mount` built by `register_routes`: starlette resolves
the full name of each contained route as `mount.name + ":" + route.name`. -/
structure MountModel where
  name : String
  path : String
  routes : List RouteModel
  deriving Repr, DecidableEq

/-- Models Python `base_path.rstrip('/')`: drops every trailing slash. -/
def rstripSlashes (s : String) : String :=
  String.mk ((s.data.reverse.dropWhile (fun c => c = '/')).reverse)

/-- The `cls._related` mapping computed by `register_routes` (resource.py
lines 454-459): the schema's `JSONAPIRelationship` fields with a truthy
`related_resource`, in declaration order, paired with their resolved
related resource class. -/
def relatedOf (fields : List FieldModel) : List (String × RelatedClassModel) :=
  fields.filterMap (fun f =>
    if f.isRelationship then
      match f.relatedClass with
      | some c => some (f.name, c)
      | none => none
    else none)

/-- Models `BaseResource.register_routes` (resource.py lines 426-530):
raises when `type_` or `schema` is falsy; otherwise builds the
`/{id}/{relationship}/{related_id}` routes, then the
`/{id}/{relationship}` routes, then the five primary routes, and mounts
them under `{base_path.rstrip('/')}/{type_}` with mount name
`register_as or type_`. -/
def register_routes (res : ResourceModel) (base_path : String) :
    Except String MountModel :=
  if res.type_ = "" ∨ res.schemaFields = none then
    .error "Cannot register a resource without specifying its `type_` and its `schema`."
  else
    let fields := res.schemaFields.getD []
    let rel := relatedOf fields
    let relatedIdRoutes := rel.map (fun p =>
      { path := "/\x7bid:" ++ res.id_mask ++ "\x7d/" ++ p.1 ++
          "/\x7brelated_id:" ++ p.2.id_mask ++ "\x7d"
        methods := ["GET"], name := p.1 ++ "-id", handler := "get_related"
        extract_params := ["id", "related_id"] })
    let relatedRoutes := rel.map (fun p =>
      { path := "/\x7bid:" ++ res.id_mask ++ "\x7d/" ++ p.1
        methods := ["GET"], name := p.1, handler := "get_related"
        extract_params := ["id"] })
    let primaryRoutes : List RouteModel := [
      { path := "/\x7bid:" ++ res.id_mask ++ "\x7d", methods := ["GET"]
        name := "get", handler := "get", extract_params := ["id"] },
      { path := "/\x7bid:" ++ res.id_mask ++ "\x7d", methods := ["PATCH"]
        name := "patch", handler := "patch", extract_params := ["id"] },
      { path := "/\x7bid:" ++ res.id_mask ++ "\x7d", methods := ["DELETE"]
        name := "delete", handler := "delete", extract_params := ["id"] },
      { path := "/", methods := ["GET"]
        name := "get_many", handler := "get_many", extract_params := [] },
      { path := "/", methods := ["POST"]
        name := "post", handler := "post", extract_params := [] }]
    .ok { name := if res.register_as = "" then res.type_ else res.register_as
          path := rstripSlashes base_path ++ "/" ++ res.type_
          routes := relatedIdRoutes ++ relatedRoutes ++ primaryRoutes }

/-- The full route name starlette assigns to a route inside a mount. -/
def fullRouteName (m : MountModel) (r : RouteModel) : String :=
  m.name ++ ":" ++ r.name

/-- Accumulates the value of a digit string, as Python `int` does. -/
def digitsToNat (l : List Char) : Nat :=
  l.foldl (fun acc c => acc * 10 + (c.toNat - 48)) 0

/-- Strips leading and trailing whitespace from a character list, as
Python `int(...)` does to its string argument before parsing. -/
def pyStrip (l : List Char) : List Char :=
  ((l.dropWhile Char.isWhitespace).reverse.dropWhile Char.isWhitespace).reverse

/-- Models Python `int(s)` on a string: strips surrounding whitespace,
accepts an optional sign followed by at least one decimal digit, and
returns `none` where Python raises `ValueError`. (Digit-group
underscores and non-ASCII digits are not modelled; no theorem below
depends on such inputs.) -/
def pyInt (s : String) : Option Int :=
  match pyStrip s.data with
  | [] => none
  | c :: rest =>
    if c = '-' then
      if !rest.isEmpty && rest.all Char.isDigit then
        some (-(digitsToNat rest : Int))
      else none
    else if c = '+' then
      if !rest.isEmpty && rest.all Char.isDigit then
        some (digitsToNat rest : Int)
      else none
    else
      if (c :: rest).all Char.isDigit then
        some (digitsToNat (c :: rest) : Int)
      else none

/-- The processed state of `BasePageNumberPagination` after
`process_query_params`. -/
structure PageNumberParams where
  page_number : Int
  page_size : Int
  deriving Repr, DecidableEq

/-- Models `BasePageNumberPagination.process_query_params`
(pagination.py lines 96-116), parametrised by the class attributes
`default_page_number`, `default_page_size` and `max_page_size`.
A present query value goes through Python `int(...)`, whose
`ValueError` is modelled as `none`; the size is capped with
`min(page_size, max_page_size)` (no lower bound is applied); a negative
page number falls back to the default. -/
def pageNumberProcessQueryParams (default_page_number default_page_size
    max_page_size : Int) (qp : List (String × String)) :
    Option PageNumberParams :=
  let psize : Option Int := match qp.lookup "page[size]" with
    | some s => pyInt s
    | none => some default_page_size
  let pnum : Option Int := match qp.lookup "page[number]" with
    | some s => pyInt s
    | none => some default_page_number
  match psize, pnum with
  | some sz, some n =>
    some { page_number := if n < 0 then default_page_number else n
           page_size := min sz max_page_size }
  | _, _ => none

/-- The processed state of `BaseOffsetPagination` after
`process_query_params`. -/
structure PageOffsetParams where
  page_offset : Int
  page_size : Int
  deriving Repr, DecidableEq

/-- Models `BaseOffsetPagination.process_query_params` (pagination.py
lines 161-181): identical handling with `page[offset]` in place of
`page[number]`. -/
def pageOffsetProcessQueryParams (default_page_offset default_page_size
    max_page_size : Int) (qp : List (String × String)) :
    Option PageOffsetParams :=
  let psize : Option Int := match qp.lookup "page[size]" with
    | some s => pyInt s
    | none => some default_page_size
  let poff : Option Int := match qp.lookup "page[offset]" with
    | some s => pyInt s
    | none => some default_page_offset
  match psize, poff with
  | some sz, some o =>
    some { page_offset := if o < 0 then default_page_offset else o
           page_size := min sz max_page_size }
  | _, _ => none

/-- The processed state of `BaseCursorPagination` after
`process_query_params`: `page_after` is either the raw query value or
the integer default `default_page_after`; `page_before` is the raw query
value or the `None` default. -/
structure CursorParams where
  page_size : Int
  page_after : Sum String Int
  page_before : Option String
  deriving Repr, DecidableEq

/-- Models `BaseCursorPagination.process_query_params` (pagination.py
lines 234-252): only `page[size]` goes through `int(...)` and the
`min` cap; `page[after]`/`page[before]` are taken as-is from the query
string, falling back to the class defaults (`0` and `None`). -/
def cursorProcessQueryParams (default_page_size max_page_size
    default_page_after : Int) (qp : List (String × String)) :
    Option CursorParams :=
  match (match qp.lookup "page[size]" with
    | some s => pyInt s
    | none => some default_page_size) with
  | some sz =>
    some { page_size := min sz max_page_size
           page_after := match qp.lookup "page[after]" with
             | some s => .inl s
             | none => .inr default_page_after
           page_before := qp.lookup "page[before]" }
  | none => none

/-- A pagination link, abstracted to the page number and page size that
`create_pagination_link` encodes into the URL's query parameters. -/
structure PageLink where
  page_number : Nat
  page_size : Nat
  deriving Repr, DecidableEq

/-- The `links` dict produced by a page-number paginator: any of the four
entries may be `None`. -/
structure PaginationLinks where
  first : Option PageLink
  next : Option PageLink
  prev : Option PageLink
  last : Option PageLink
  deriving Repr, DecidableEq

/-- Models `TPagination.generate_pagination_links`
(tests/test_pagination.py lines 148-168) and
`PageNumberPaginator.generate_pagination_links`
(examples/sample-plain/accounts/pagination.py lines 20-40):
`page_count = ceil(len(self.data) / self.page_size)`, modelled for a
positive page size as `(totalItems + page_size - 1) / page_size`;
`first` is always page 1, `last` is always page `page_count`, `next`
exists iff `page_number < page_count`, `prev` iff `page_number > 1`. -/
def generate_pagination_links (totalItems page_size page_number : Nat) :
    PaginationLinks :=
  let page_count := (totalItems + page_size - 1) / page_size
  { first := some { page_number := 1, page_size := page_size }
    next := if page_number < page_count then
        some { page_number := page_number + 1, page_size := page_size }
      else none
    prev := if page_number > 1 then
        some { page_number := page_number - 1, page_size := page_size }
      else none
    last := some { page_number := page_count, page_size := page_size } }

/-- A serialized json:api resource object as produced by `schema.dump`:
the `type` and `id` members plus optional `attributes` and
`relationships` blocks. Blocks are Python dicts, modelled as ordered
association lists over an arbitrary value type `α`; `some []` models a
present but empty — hence falsy — block, which `filter_sparse_fields`
leaves untouched. -/
structure ResourceObject (α : Type) where
  rtype : String
  rid : α
  attributes : Option (List (String × α))
  relationships : Option (List (String × α))
  deriving Repr, DecidableEq

/-- The top-level `data` member of a serialized document: JSON null (or
an absent key), a single resource object, or a list of them. -/
inductive DataField (α : Type) where
  | null
  | single (r : ResourceObject α)
  | multiple (rs : List (ResourceObject α))
  deriving Repr, DecidableEq

/-- Python truthiness of the `data` member, as tested by
`serialized_data.get('data')` in `process_sparse_fields`. -/
def DataField.truthy {α : Type} : DataField α → Bool
  | .null => false
  | .single _ => true
  | .multiple rs => !rs.isEmpty

/-- A serialized json:api document as seen by `process_sparse_fields`:
its `data` member and its optional `included` list. Other top-level
members are copied verbatim by the function and are not modelled. -/
structure Document (α : Type) where
  data : DataField α
  included : Option (List (ResourceObject α))
  deriving Repr, DecidableEq

/-- The shared block transformation inside `filter_sparse_fields`
(utils.py lines 99-109 for `attributes` and 110-120 for
`relationships`): an absent block stays absent, a falsy (empty) block is
left untouched, otherwise entries whose name is not in `sparse_fields`
are dropped and a block that became empty is deleted (`none`) instead of
being kept as `{}`. -/
def filterBlock {α : Type} (sparse_fields : List String)
    (block : Option (List (String × α))) : Option (List (String × α)) :=
  match block with
  | none => none
  | some entries =>
    if entries.isEmpty then some entries
    else if (entries.filter (fun p => sparse_fields.contains p.1)).isEmpty then
      none
    else some (entries.filter (fun p => sparse_fields.contains p.1))

/-- Models `filter_sparse_fields` (utils.py lines 89-121): copies the
item and applies the block transformation to its `attributes` and
`relationships`; the `type` and `id` members are unchanged. -/
def filter_sparse_fields {α : Type} (item : ResourceObject α)
    (sparse_fields : List String) : ResourceObject α :=
  { item with
    attributes := filterBlock sparse_fields item.attributes
    relationships := filterBlock sparse_fields item.relationships }

/-- The per-object step of `process_sparse_fields` (utils.py lines
148-151, 153-156 and 161-164): an object whose `type` is a key of the
mapping is filtered with that key's field list; any other object is kept
as-is. -/
def sparse_item {α : Type} (sf : List (String × List String))
    (item : ResourceObject α) : ResourceObject α :=
  match sf.lookup item.rtype with
  | some fields => filter_sparse_fields item fields
  | none => item

/-- The `new_included` list built by `process_sparse_fields` (utils.py
lines 141-142 and 158-164): empty when `included` is absent or falsy,
otherwise the filtered copy of `included`. -/
def newIncludedOf {α : Type} (sf : List (String × List String))
    (inc : Option (List (ResourceObject α))) : List (ResourceObject α) :=
  match inc with
  | some l => if l.isEmpty then [] else l.map (sparse_item sf)
  | none => []

/-- The write-back of `new_included` (utils.py lines 168-169): the key is
only overwritten when `new_included` is truthy, so an absent or empty
`included` keeps its original value from the document copy. -/
def outIncludedOf {α : Type} (sf : List (String × List String))
    (inc : Option (List (ResourceObject α))) :
    Option (List (ResourceObject α)) :=
  if (newIncludedOf sf inc).isEmpty then inc else some (newIncludedOf sf inc)

/-- Models `process_sparse_fields` (utils.py lines 124-171): returns the
document unchanged when the mapping is empty or `data` is falsy;
otherwise maps `sparse_item` over `data` (per the `many` flag) and
writes back the `included` list through `outIncludedOf`. `none` models
the `TypeError` Python raises when the `many` flag does not match the
shape of a truthy `data`. -/
def process_sparse_fields {α : Type} (doc : Document α) (many : Bool)
    (sf : List (String × List String)) : Option (Document α) :=
  if sf.isEmpty || !doc.data.truthy then some doc
  else
    match many, doc.data with
    | true, .multiple rs =>
      some { data := .multiple (rs.map (sparse_item sf))
             included := outIncludedOf sf doc.included }
    | false, .single r =>
      some { data := .single (sparse_item sf r)
             included := outIncludedOf sf doc.included }
    | _, _ => none

/-- Statement helper: whether a truthy `data` member has the shape the
`many` flag expects (the cases in which `process_sparse_fields` does not
raise a `TypeError`). -/
def dataMatch {α : Type} (many : Bool) (d : DataField α) : Bool :=
  match many, d with
  | true, .multiple rs => !rs.isEmpty
  | false, .single _ => true
  | _, _ => false

/-- Statement helper: maps a function over the resource objects of a
`data` member. -/
def mapDataField {α : Type} (f : ResourceObject α → ResourceObject α) :
    DataField α → DataField α
  | .null => .null
  | .single r => .single (f r)
  | .multiple rs => .multiple (rs.map f)

/-- Statement helper: the effect of `process_sparse_fields` on the
`included` member in its non-trivial branch (utils.py lines 141-142,
158-164 and 168-169): an absent or empty `included` is left as it was;
a non-empty one has `sparse_item` mapped over it. -/
def includedRule {α : Type} (sf : List (String × List String))
    (inc : Option (List (ResourceObject α))) :
    Option (List (ResourceObject α)) :=
  match inc with
  | some l => if l.isEmpty then some l else some (l.map (sparse_item sf))
  | none => none

/-- C3: `serialize_error` is total over exceptions: a `JSONAPIException`
maps to a response with its own status code and its own errors list; any
other `HTTPException` maps to its status code with errors
`[{'detail': detail}]`; every other exception maps to status 500 with
errors `[{'detail': 'Internal server error'}]`; in every case the body is
`{'errors': [...]}` and the response carries the
`application/vnd.api+json` media type. -/
theorem serialize_error_total_classification :
    (∀ e, serialize_error (Exc.jsonapi e) =
      { status_code := e.status_code, errors := e.errors
        media_type := JSONAPIResponse.media_type }) ∧
    (∀ s d, serialize_error (Exc.http s d) =
      { status_code := s, errors := [[("detail", d)]]
        media_type := JSONAPIResponse.media_type }) ∧
    (∀ i, serialize_error (Exc.other i) =
      { status_code := 500, errors := [[("detail", "Internal server error")]]
        media_type := JSONAPIResponse.media_type }) ∧
    (∀ exc, (serialize_error exc).media_type = JSONAPIResponse.media_type) := by
  refine ⟨fun e => rfl, fun s d => rfl, fun i => rfl, fun exc => ?_⟩
  cases exc <;> rfl

/-- C1: the three lifecycle stages of `handle_request` are guarded: if
`before_request` raises, the response is the serialized error and neither
the handler nor `after_request` runs; if the allowed-method check or the
handler raises, the error is serialized into the response and
`after_request` still runs; if `after_request` raises, its serialized
error replaces the response; a non-raising `after_request` never alters
an error response already produced by the handler. -/
theorem handle_request_lifecycle_guards :
    (∀ e mA h after, handle_request (Except.error e) mA h after =
      { response := handle_error e, handlerRan := false, afterRan := false }) ∧
    (∀ e after, after (handle_error e) = Except.ok () →
      handle_request (Except.ok ()) true (Except.error e) after =
        { response := handle_error e, handlerRan := true, afterRan := true }) ∧
    (∀ mA h after, (handle_request (Except.ok ()) mA h after).afterRan = true) ∧
    (∀ h after,
      after (handle_error (Exc.jsonapi (JSONAPIException.init 405 none none))) =
        Except.ok () →
      handle_request (Except.ok ()) false h after =
        { response := handle_error (Exc.jsonapi (JSONAPIException.init 405 none none))
          handlerRan := false, afterRan := true }) ∧
    (∀ r after e2, after r = Except.error e2 →
      handle_request (Except.ok ()) true (Except.ok r) after =
        { response := handle_error e2, handlerRan := true, afterRan := true }) ∧
    (∀ e after e2, after (handle_error e) = Except.error e2 →
      handle_request (Except.ok ()) true (Except.error e) after =
        { response := handle_error e2, handlerRan := true, afterRan := true }) := by
  refine ⟨fun e mA h after => rfl, ?_, ?_, ?_, ?_, ?_⟩
  · intro e after hafter
    simp [handle_request, hafter]
  · intro mA h after
    simp only [handle_request]
    split <;> rfl
  · intro h after hafter
    simp [handle_request, hafter]
  · intro r after e2 hafter
    simp [handle_request, hafter]
  · intro e after e2 hafter
    simp [handle_request, hafter]

/-- Witness for C1: with a raising handler and a non-raising
`after_request`, the handler's serialized error is the final response and
the after hook still ran. -/
theorem handle_request_lifecycle_guards_witness :
    handle_request (Except.ok ()) true (Except.error (Exc.other "boom"))
      (fun _ => Except.ok ()) =
      { response := handle_error (Exc.other "boom"), handlerRan := true
        afterRan := true } :=
  handle_request_lifecycle_guards.2.1 (Exc.other "boom") (fun _ => Except.ok ()) rfl

/-- C5: a request whose method is not in `allowed_methods` is answered
405 before any handler is invoked, every default handler (`get`, `patch`,
`delete`, `get_many`, `post`, `get_related`) raises a 405
`JSONAPIException`, and the resulting response body is
`{"errors": [{"detail": "Method Not Allowed"}]}`. -/
theorem method_not_allowed_405 :
    (∀ h after,
      after (handle_error (Exc.jsonapi (JSONAPIException.init 405 none none))) =
        Except.ok () →
      handle_request (Except.ok ()) false h after =
        { response := Resp.error
            { status_code := 405, errors := [[("detail", "Method Not Allowed")]]
              media_type := JSONAPIResponse.media_type }
          handlerRan := false, afterRan := true }) ∧
    BaseResource.get = Except.error (Exc.jsonapi (JSONAPIException.init 405 none none)) ∧
    BaseResource.patch = Except.error (Exc.jsonapi (JSONAPIException.init 405 none none)) ∧
    BaseResource.delete = Except.error (Exc.jsonapi (JSONAPIException.init 405 none none)) ∧
    BaseResource.get_many = Except.error (Exc.jsonapi (JSONAPIException.init 405 none none)) ∧
    BaseResource.post = Except.error (Exc.jsonapi (JSONAPIException.init 405 none none)) ∧
    BaseResource.get_related = Except.error (Exc.jsonapi (JSONAPIException.init 405 none none)) ∧
    serialize_error (Exc.jsonapi (JSONAPIException.init 405 none none)) =
      { status_code := 405, errors := [[("detail", "Method Not Allowed")]]
        media_type := JSONAPIResponse.media_type } := by
  refine ⟨?_, rfl, rfl, rfl, rfl, rfl, rfl, by decide⟩
  intro h after hafter
  simp [handle_request, hafter]
  decide

/-- Witness for C5: a disallowed method with the default `get` handler
and a non-raising after hook yields the 405 error document without the
handler running. -/
theorem method_not_allowed_405_witness :
    handle_request (Except.ok ()) false BaseResource.get (fun _ => Except.ok ()) =
      { response := Resp.error
          { status_code := 405, errors := [[("detail", "Method Not Allowed")]]
            media_type := JSONAPIResponse.media_type }
        handlerRan := false, afterRan := true } :=
  method_not_allowed_405.1 BaseResource.get (fun _ => Except.ok ()) rfl

/-- C10 counterexample: a caller passing an explicit *empty* errors list
does not get its list mutated in place: `errors or []` discards the empty
list and a fresh list is used instead, so the claim's "in that case the
caller's list object itself is mutated" is false at `errors=[]`. -/
theorem jsonapi_exception_empty_list_not_aliased :
    (JSONAPIException.init 400 none (some ([] : List ErrorObj))).aliasesCallerErrors
      = false ∧
    (JSONAPIException.init 400 none (some ([] : List ErrorObj))).errors =
      [[("detail", "Bad Request")]] := by
  constructor <;> decide

/-- C10 amended: every constructed `JSONAPIException` (including
`ResourceNotFound`) ends construction with a non-empty errors list whose
last element is `{'detail': detail}`; the detail entry is appended even
when the caller passes an explicit errors list, and the caller's list
object itself is mutated in place exactly when that list is non-empty
(an explicit empty list is replaced by a fresh list). -/
theorem jsonapi_exception_errors_construction :
    (∀ s d errs, (JSONAPIException.init s d errs).errors ≠ []) ∧
    (∀ s d errs, (JSONAPIException.init s d errs).errors.getLast? =
      some [("detail", (JSONAPIException.init s d errs).detail)]) ∧
    (∀ s d errs, (JSONAPIException.init s d errs).aliasesCallerErrors = true ↔
      ∃ l, errs = some l ∧ l ≠ []) ∧
    (∀ s d l, l ≠ [] → (JSONAPIException.init s d (some l)).errors =
      l ++ [[("detail", (JSONAPIException.init s d (some l)).detail)]]) ∧
    (∀ s d, (ResourceNotFound.init s d).errors =
      [[("detail", match d with | some x => x | none => "Resource object not found.")]]) := by
  refine ⟨?_, ?_, ?_, ?_, ?_⟩
  · intro s d errs
    simp [JSONAPIException.init]
  · intro s d errs
    simp [JSONAPIException.init]
  · intro s d errs
    cases errs with
    | none => simp [JSONAPIException.init]
    | some l => simp [JSONAPIException.init]
  · intro s d l hl
    simp [JSONAPIException.init, hl]
  · intro s d
    cases d <;> rfl

/-- Witness for C10: a non-empty explicit errors list is aliased (mutated
in place) by the constructor. -/
theorem jsonapi_exception_errors_construction_witness :
    (JSONAPIException.init 400 (some "final")
      (some [[("detail", "foo")]])).aliasesCallerErrors = true :=
  (jsonapi_exception_errors_construction.2.2.1 400 (some "final")
    (some [[("detail", "foo")]])).mpr ⟨[[("detail", "foo")]], rfl, by decide⟩

/-- C4: for every POST or PATCH request whose Content-Type header is
missing or differs from `application/vnd.api+json`, `validate_body`,
`deserialize_body` and the relationship resource's `deserialize_ids` all
raise the fixed 400 `JSONAPIException` with detail
"Incorrect or missing Content-Type header, expected
`application/vnd.api+json`." regardless of the body content (the result
does not depend on the request's JSON body, which is never read). -/
theorem content_type_check_before_body :
    ∀ (Body Ids γ : Type) (req : RequestModel Body)
      (validate : Body → List ErrorObj) (load : Body → γ)
      (relDeserialize : Body → Except (List String) Ids),
      (req.method = "POST" ∨ req.method = "PATCH") →
      req.contentType ≠ some "application/vnd.api+json" →
      validate_body req validate = Except.error contentTypeError ∧
      deserialize_body req validate load = Except.error contentTypeError ∧
      deserialize_ids req relDeserialize = Except.error contentTypeError ∧
      contentTypeError.status_code = 400 ∧
      contentTypeError.errors =
        [[("detail",
           "Incorrect or missing Content-Type header, expected `application/vnd.api+json`.")]] := by
  intro Body Ids γ req validate load relDeserialize hm hct
  have h1 : validate_body req validate = Except.error contentTypeError := by
    unfold validate_body
    rw [if_pos ⟨hm, hct⟩]
  have h3 : deserialize_ids req relDeserialize = Except.error contentTypeError := by
    unfold deserialize_ids
    rw [if_pos ⟨hm, hct⟩]
  refine ⟨h1, ?_, h3, rfl, rfl⟩
  simp [deserialize_body, h1]

/-- Witness for C4: a POST request with no Content-Type header is
rejected with the fixed 400 exception by `validate_body`. -/
theorem content_type_check_before_body_witness :
    validate_body
      { method := "POST", contentType := none
        jsonBody := (Except.ok () : Except Unit Unit) }
      (fun _ => []) = Except.error contentTypeError :=
  (content_type_check_before_body Unit Unit Unit
    { method := "POST", contentType := none, jsonBody := Except.ok () }
    (fun _ => []) (fun _ => ()) (fun _ => Except.ok ())
    (Or.inl rfl) (by decide)).1

/-- C2: `register_routes` raises when `type_` or `schema` is unset, and
otherwise mounts, under `{base_path}/{type_}` with mount name
`register_as` (or `type_` when no alias is set), exactly these routes:
GET/PATCH/DELETE `/{id}` named get/patch/delete, GET `/` named get_many,
POST `/` named post, and, for each relationship field on the schema that
declares a `related_resource`, GET `/{id}/{relationship}` and GET
`/{id}/{relationship}/{related_id}` dispatching to `get_related`; a
route's full name is `{mount name}:{route name}`, which for the named
primary routes is `{type_or_alias}:{handler}`. -/
theorem register_routes_spec :
    ∀ (res : ResourceModel) (bp : String),
    ((res.type_ = "" ∨ res.schemaFields = none) →
      register_routes res bp =
        Except.error "Cannot register a resource without specifying its `type_` and its `schema`.") ∧
    (∀ m r, fullRouteName m r = m.name ++ ":" ++ r.name) ∧
    (∀ fs, res.schemaFields = some fs → res.type_ ≠ "" →
      register_routes res bp = Except.ok
        { name := if res.register_as = "" then res.type_ else res.register_as
          path := rstripSlashes bp ++ "/" ++ res.type_
          routes :=
            (relatedOf fs).map (fun p =>
              { path := "/\x7bid:" ++ res.id_mask ++ "\x7d/" ++ p.1 ++
                  "/\x7brelated_id:" ++ p.2.id_mask ++ "\x7d"
                methods := ["GET"], name := p.1 ++ "-id", handler := "get_related"
                extract_params := ["id", "related_id"] }) ++
            (relatedOf fs).map (fun p =>
              { path := "/\x7bid:" ++ res.id_mask ++ "\x7d/" ++ p.1
                methods := ["GET"], name := p.1, handler := "get_related"
                extract_params := ["id"] }) ++
            [{ path := "/\x7bid:" ++ res.id_mask ++ "\x7d", methods := ["GET"]
               name := "get", handler := "get", extract_params := ["id"] },
             { path := "/\x7bid:" ++ res.id_mask ++ "\x7d", methods := ["PATCH"]
               name := "patch", handler := "patch", extract_params := ["id"] },
             { path := "/\x7bid:" ++ res.id_mask ++ "\x7d", methods := ["DELETE"]
               name := "delete", handler := "delete", extract_params := ["id"] },
             { path := "/", methods := ["GET"]
               name := "get_many", handler := "get_many", extract_params := [] },
             { path := "/", methods := ["POST"]
               name := "post", handler := "post", extract_params := [] }] } ∧
      (∀ m, register_routes res bp = Except.ok m →
        (∀ r ∈ m.routes, r.handler = "get_related" ∨ r.name = r.handler) ∧
        (∀ f ∈ fs, f.isRelationship = true → ∀ c, f.relatedClass = some c →
          ({ path := "/\x7bid:" ++ res.id_mask ++ "\x7d/" ++ f.name
             methods := ["GET"], name := f.name, handler := "get_related"
             extract_params := ["id"] } : RouteModel) ∈ m.routes ∧
          ({ path := "/\x7bid:" ++ res.id_mask ++ "\x7d/" ++ f.name ++
               "/\x7brelated_id:" ++ c.id_mask ++ "\x7d"
             methods := ["GET"], name := f.name ++ "-id", handler := "get_related"
             extract_params := ["id", "related_id"] } : RouteModel) ∈ m.routes))) := by
  intro res bp
  refine ⟨?_, fun m r => rfl, ?_⟩
  · intro h
    unfold register_routes
    rw [if_pos h]
  · intro fs hfs hty
    have hcond : ¬(res.type_ = "" ∨ res.schemaFields = none) := by
      simp [hfs, hty]
    have heq : register_routes res bp = Except.ok
        { name := if res.register_as = "" then res.type_ else res.register_as
          path := rstripSlashes bp ++ "/" ++ res.type_
          routes :=
            (relatedOf fs).map (fun p =>
              { path := "/\x7bid:" ++ res.id_mask ++ "\x7d/" ++ p.1 ++
                  "/\x7brelated_id:" ++ p.2.id_mask ++ "\x7d"
                methods := ["GET"], name := p.1 ++ "-id", handler := "get_related"
                extract_params := ["id", "related_id"] }) ++
            (relatedOf fs).map (fun p =>
              { path := "/\x7bid:" ++ res.id_mask ++ "\x7d/" ++ p.1
                methods := ["GET"], name := p.1, handler := "get_related"
                extract_params := ["id"] }) ++
            [{ path := "/\x7bid:" ++ res.id_mask ++ "\x7d", methods := ["GET"]
               name := "get", handler := "get", extract_params := ["id"] },
             { path := "/\x7bid:" ++ res.id_mask ++ "\x7d", methods := ["PATCH"]
               name := "patch", handler := "patch", extract_params := ["id"] },
             { path := "/\x7bid:" ++ res.id_mask ++ "\x7d", methods := ["DELETE"]
               name := "delete", handler := "delete", extract_params := ["id"] },
             { path := "/", methods := ["GET"]
               name := "get_many", handler := "get_many", extract_params := [] },
             { path := "/", methods := ["POST"]
               name := "post", handler := "post", extract_params := [] }] } := by
      unfold register_routes
      rw [if_neg hcond, hfs]
      rfl
    refine ⟨heq, ?_⟩
    intro m hm
    rw [heq] at hm
    injection hm with hm
    subst hm
    constructor
    · intro r hr
      simp only [List.mem_append, List.mem_map] at hr
      rcases hr with (⟨p, hp, rfl⟩ | ⟨p, hp, rfl⟩) | hr
      · exact Or.inl rfl
      · exact Or.inl rfl
      · simp only [List.mem_cons, List.not_mem_nil, or_false] at hr
        rcases hr with rfl | rfl | rfl | rfl | rfl <;> exact Or.inr rfl
    · intro f hf hrel c hc
      have hpmem : (f.name, c) ∈ relatedOf fs := by
        unfold relatedOf
        exact List.mem_filterMap.mpr ⟨f, hf, by simp [hrel, hc]⟩
      constructor
      · exact List.mem_append.mpr (Or.inl (List.mem_append.mpr (Or.inr
          (List.mem_map.mpr ⟨(f.name, c), hpmem, rfl⟩))))
      · exact List.mem_append.mpr (Or.inl (List.mem_append.mpr (Or.inl
          (List.mem_map.mpr ⟨(f.name, c), hpmem, rfl⟩))))

/-- Witness for C2: a resource of type `articles` with one plain
attribute and one relationship field mounts the seven expected routes
under `/api/articles`. -/
theorem register_routes_spec_witness :
    register_routes
      { type_ := "articles"
        schemaFields := some
          [{ name := "title", isRelationship := false, relatedClass := none },
           { name := "author", isRelationship := true
             relatedClass := some { id_mask := "int" } }]
        id_mask := "str", register_as := "" } "/api/" =
      Except.ok
        { name := "articles", path := "/api/articles"
          routes :=
            [{ path := "/\x7bid:str\x7d/author/\x7brelated_id:int\x7d"
               methods := ["GET"], name := "author-id", handler := "get_related"
               extract_params := ["id", "related_id"] },
             { path := "/\x7bid:str\x7d/author", methods := ["GET"]
               name := "author", handler := "get_related", extract_params := ["id"] },
             { path := "/\x7bid:str\x7d", methods := ["GET"]
               name := "get", handler := "get", extract_params := ["id"] },
             { path := "/\x7bid:str\x7d", methods := ["PATCH"]
               name := "patch", handler := "patch", extract_params := ["id"] },
             { path := "/\x7bid:str\x7d", methods := ["DELETE"]
               name := "delete", handler := "delete", extract_params := ["id"] },
             { path := "/", methods := ["GET"]
               name := "get_many", handler := "get_many", extract_params := [] },
             { path := "/", methods := ["POST"]
               name := "post", handler := "post", extract_params := [] }] } := by
  have h := ((register_routes_spec
    { type_ := "articles"
      schemaFields := some
        [{ name := "title", isRelationship := false, relatedClass := none },
         { name := "author", isRelationship := true
           relatedClass := some { id_mask := "int" } }]
      id_mask := "str", register_as := "" } "/api/").2.2 _ rfl (by decide)).1
  simpa using h

/-- C7 counterexample: the page-number strategy accepts `page[size]=0`
silently — the resulting size 0 lies outside `[1, max_page_size]` and no
error is raised — and a non-numeric `page[size]` raises a plain
`ValueError` (modelled `none`), not a dedicated 400 pagination error. -/
theorem pagination_size_not_clamped_counterexample :
    pageNumberProcessQueryParams 1 50 100 [("page[size]", "0")] =
      some { page_number := 1, page_size := 0 } ∧
    ¬(1 ≤ (0 : Int)) ∧
    pageNumberProcessQueryParams 1 50 100 [("page[size]", "abc")] = none := by
  refine ⟨by decide, by decide, by decide⟩

/-- C7 amended: for every pagination strategy (page-number, offset,
cursor), processing the query parameters caps the requested page size
only from above, at `max_page_size` (no lower bound is enforced, so
sizes below 1 pass through); a non-numeric `page[size]` raises a plain
`ValueError` (no dedicated 400 pagination error exists); a negative
`page[number]` or `page[offset]` silently falls back to the default
value instead of erroring. -/
theorem pagination_process_query_params_spec :
    ∀ (dn ds mx da : Int) (qp : List (String × String)),
      (∀ s v r, qp.lookup "page[size]" = some s → pyInt s = some v →
        pageNumberProcessQueryParams dn ds mx qp = some r →
        r.page_size = min v mx) ∧
      (∀ s, qp.lookup "page[size]" = some s → pyInt s = none →
        pageNumberProcessQueryParams dn ds mx qp = none) ∧
      (qp.lookup "page[size]" = none →
        ∀ r, pageNumberProcessQueryParams dn ds mx qp = some r →
          r.page_size = min ds mx) ∧
      (∀ s v r, qp.lookup "page[number]" = some s → pyInt s = some v → v < 0 →
        pageNumberProcessQueryParams dn ds mx qp = some r →
        r.page_number = dn) ∧
      (∀ s v r, qp.lookup "page[size]" = some s → pyInt s = some v →
        pageOffsetProcessQueryParams dn ds mx qp = some r →
        r.page_size = min v mx) ∧
      (∀ s, qp.lookup "page[size]" = some s → pyInt s = none →
        pageOffsetProcessQueryParams dn ds mx qp = none) ∧
      (∀ s v r, qp.lookup "page[offset]" = some s → pyInt s = some v → v < 0 →
        pageOffsetProcessQueryParams dn ds mx qp = some r →
        r.page_offset = dn) ∧
      (∀ s v r, qp.lookup "page[size]" = some s → pyInt s = some v →
        cursorProcessQueryParams ds mx da qp = some r →
        r.page_size = min v mx) ∧
      (∀ s, qp.lookup "page[size]" = some s → pyInt s = none →
        cursorProcessQueryParams ds mx da qp = none) := by
  intro dn ds mx da qp
  refine ⟨?_, ?_, ?_, ?_, ?_, ?_, ?_, ?_, ?_⟩
  · intro s v r hs hv hr
    simp only [pageNumberProcessQueryParams, hs, hv] at hr
    cases h2 : (match qp.lookup "page[number]" with
      | some s => pyInt s
      | none => some dn) with
    | none => rw [h2] at hr; cases hr
    | some n => rw [h2] at hr; cases hr; rfl
  · intro s hs hv
    simp only [pageNumberProcessQueryParams, hs, hv]
  · intro hs r hr
    simp only [pageNumberProcessQueryParams, hs] at hr
    cases h2 : (match qp.lookup "page[number]" with
      | some s => pyInt s
      | none => some dn) with
    | none => rw [h2] at hr; cases hr
    | some n => rw [h2] at hr; cases hr; rfl
  · intro s v r hs hv hneg hr
    simp only [pageNumberProcessQueryParams, hs, hv] at hr
    cases h2 : (match qp.lookup "page[size]" with
      | some s => pyInt s
      | none => some ds) with
    | none => rw [h2] at hr; cases hr
    | some sz => rw [h2] at hr; cases hr; simp [hneg]
  · intro s v r hs hv hr
    simp only [pageOffsetProcessQueryParams, hs, hv] at hr
    cases h2 : (match qp.lookup "page[offset]" with
      | some s => pyInt s
      | none => some dn) with
    | none => rw [h2] at hr; cases hr
    | some o => rw [h2] at hr; cases hr; rfl
  · intro s hs hv
    simp only [pageOffsetProcessQueryParams, hs, hv]
  · intro s v r hs hv hneg hr
    simp only [pageOffsetProcessQueryParams, hs, hv] at hr
    cases h2 : (match qp.lookup "page[size]" with
      | some s => pyInt s
      | none => some ds) with
    | none => rw [h2] at hr; cases hr
    | some sz => rw [h2] at hr; cases hr; simp [hneg]
  · intro s v r hs hv hr
    simp only [cursorProcessQueryParams, hs, hv] at hr
    cases hr
    rfl
  · intro s hs hv
    simp only [cursorProcessQueryParams, hs, hv]

/-- Witness for C7 amended: an oversized `page[size]=500` is capped to
`min 500 100 = 100` by the page-number strategy. -/
theorem pagination_process_query_params_spec_witness :
    ({ page_number := 1, page_size := 100 } : PageNumberParams).page_size =
      min (500 : Int) 100 :=
  (pagination_process_query_params_spec 1 50 100 0
    [("page[size]", "500")]).1 "500" 500 { page_number := 1, page_size := 100 }
    rfl (by decide) (by decide)

/-- C8 counterexample: with zero items and page size 2, the generated
`last` link points at page `ceil(0/2) = 0`, not at page 1 as the claim
states for `N = 0`. -/
theorem pagination_last_page_zero_counterexample :
    (generate_pagination_links 0 2 1).last =
      some { page_number := 0, page_size := 2 } ∧ (0 : Nat) ≠ 1 := by
  refine ⟨by decide, by decide⟩

/-- C8 amended: for the page-number strategy over `N` items with page
size `S ≥ 1`, the `last` link points at page `ceil(N/S)` — which is page
0 when `N = 0` — the `next` link is present exactly when
`current_page < ceil(N/S)`, the `prev` link is present exactly when
`current_page > 1`, and `first` (page 1) and `last` are always
present. -/
theorem generate_pagination_links_spec :
    ∀ (n s p : Nat), 1 ≤ s →
    (generate_pagination_links n s p).last =
      some { page_number := n ⌈/⌉ s, page_size := s } ∧
    (n = 0 → (generate_pagination_links n s p).last =
      some { page_number := 0, page_size := s }) ∧
    ((generate_pagination_links n s p).next.isSome = true ↔ p < n ⌈/⌉ s) ∧
    ((generate_pagination_links n s p).prev.isSome = true ↔ 1 < p) ∧
    (generate_pagination_links n s p).first =
      some { page_number := 1, page_size := s } := by
  intro n s p hs
  have hceil : n ⌈/⌉ s = (n + s - 1) / s := rfl
  refine ⟨rfl, ?_, ?_, ?_, rfl⟩
  · rintro rfl
    have h0 : (s - 1) / s = 0 := Nat.div_eq_of_lt (by omega)
    simp [generate_pagination_links, h0]
  · rw [hceil]
    simp only [generate_pagination_links]
    by_cases h : p < (n + s - 1) / s <;> simp [h]
  · simp only [generate_pagination_links]
    by_cases h : 1 < p <;> simp [h]

/-- Witness for C8 amended: five items with page size 2, viewed from
page 1, give `last` pointing at page `ceil(5/2) = 3`. -/
theorem generate_pagination_links_spec_witness :
    (generate_pagination_links 5 2 1).last =
      some { page_number := 5 ⌈/⌉ 2, page_size := 2 } :=
  (generate_pagination_links_spec 5 2 1 (by decide)).1

/-- `(l.map f).isEmpty = l.isEmpty`. -/
theorem isEmpty_map {α β : Type} (f : α → β) (l : List α) :
    (l.map f).isEmpty = l.isEmpty := by
  cases l <;> rfl

/-- Equation: `filterBlock` on an absent block. -/
theorem filterBlock_none {α : Type} (f : List String) :
    filterBlock f (none : Option (List (String × α))) = none := rfl

/-- Unfolding equation for `filterBlock` on a present block. -/
theorem filterBlock_some {α : Type} (f : List String)
    (entries : List (String × α)) :
    filterBlock f (some entries) =
      if entries.isEmpty then some entries
      else if (entries.filter (fun p => f.contains p.1)).isEmpty then none
      else some (entries.filter (fun p => f.contains p.1)) := rfl

/-- Equation: `filterBlock` leaves a falsy (empty) block untouched. -/
theorem filterBlock_some_empty {α : Type} (f : List String)
    (entries : List (String × α)) (h : entries.isEmpty = true) :
    filterBlock f (some entries) = some entries := by
  rw [filterBlock_some, if_pos h]

/-- Equation: `filterBlock` deletes a block that it emptied. -/
theorem filterBlock_some_dropped {α : Type} (f : List String)
    (entries : List (String × α)) (h : entries.isEmpty = false)
    (h2 : (entries.filter (fun p => f.contains p.1)).isEmpty = true) :
    filterBlock f (some entries) = none := by
  rw [filterBlock_some, if_neg (by rw [h]; exact Bool.false_ne_true), if_pos h2]

/-- Equation: `filterBlock` keeps a non-empty filtered block. -/
theorem filterBlock_some_kept {α : Type} (f : List String)
    (entries : List (String × α)) (h : entries.isEmpty = false)
    (h2 : (entries.filter (fun p => f.contains p.1)).isEmpty = false) :
    filterBlock f (some entries) =
      some (entries.filter (fun p => f.contains p.1)) := by
  rw [filterBlock_some, if_neg (by rw [h]; exact Bool.false_ne_true), if_neg (by rw [h2]; exact Bool.false_ne_true)]

/-- Filtering a block twice with the same field list is the same as
filtering it once. -/
theorem filterBlock_idem {α : Type} (f : List String)
    (b : Option (List (String × α))) :
    filterBlock f (filterBlock f b) = filterBlock f b := by
  cases b with
  | none => rfl
  | some entries =>
    by_cases h : entries.isEmpty = true
    · rw [filterBlock_some_empty f entries h, filterBlock_some_empty f entries h]
    · have h' : entries.isEmpty = false := by
        revert h
        cases entries.isEmpty <;> simp
      by_cases h2 : (entries.filter (fun p => f.contains p.1)).isEmpty = true
      · rw [filterBlock_some_dropped f entries h' h2]
        rfl
      · have h2' : (entries.filter (fun p => f.contains p.1)).isEmpty = false := by
          revert h2
          cases (entries.filter (fun p => f.contains p.1)).isEmpty <;> simp
        rw [filterBlock_some_kept f entries h' h2']
        have hff : (entries.filter (fun p => f.contains p.1)).filter
            (fun p => f.contains p.1) =
            entries.filter (fun p => f.contains p.1) := by
          rw [List.filter_filter]
          exact List.filter_congr (fun a _ => Bool.and_self _)
        rw [filterBlock_some_kept f _ h2' (by rw [hff]; exact h2'), hff]

/-- Every entry surviving `filterBlock` was already in the block and has
its name in the field list. -/
theorem filterBlock_mem {α : Type} (f : List String)
    (b : Option (List (String × α))) (p : String × α)
    (hp : p ∈ (filterBlock f b).getD []) :
    f.contains p.1 = true ∧ p ∈ b.getD [] := by
  cases b with
  | none =>
    rw [filterBlock_none] at hp
    simp at hp
  | some entries =>
    by_cases h : entries.isEmpty = true
    · rw [filterBlock_some_empty f entries h] at hp
      rw [List.isEmpty_iff] at h
      subst h
      simp at hp
    · have h' : entries.isEmpty = false := by
        revert h
        cases entries.isEmpty <;> simp
      by_cases h2 : (entries.filter (fun p => f.contains p.1)).isEmpty = true
      · rw [filterBlock_some_dropped f entries h' h2] at hp
        simp at hp
      · have h2' : (entries.filter (fun p => f.contains p.1)).isEmpty = false := by
          revert h2
          cases (entries.filter (fun p => f.contains p.1)).isEmpty <;> simp
        rw [filterBlock_some_kept f entries h' h2'] at hp
        rw [Option.getD_some] at hp
        have hm := List.mem_filter.mp hp
        refine ⟨hm.2, ?_⟩
        rw [Option.getD_some]
        exact hm.1

/-- `filterBlock` never leaves a present block that it emptied: a
resulting `some []` can only come from an input `some []`. -/
theorem filterBlock_no_new_empty {α : Type} (f : List String)
    (b : Option (List (String × α))) (l : List (String × α))
    (hb : filterBlock f b = some l) (hl : l = []) : b = some [] := by
  subst hl
  cases b with
  | none =>
    rw [filterBlock_none] at hb
    exact Option.noConfusion hb
  | some entries =>
    by_cases h : entries.isEmpty = true
    · rw [List.isEmpty_iff] at h
      subst h
      rfl
    · have h' : entries.isEmpty = false := by
        revert h
        cases entries.isEmpty <;> simp
      by_cases h2 : (entries.filter (fun p => f.contains p.1)).isEmpty = true
      · rw [filterBlock_some_dropped f entries h' h2] at hb
        exact Option.noConfusion hb
      · have h2' : (entries.filter (fun p => f.contains p.1)).isEmpty = false := by
          revert h2
          cases (entries.filter (fun p => f.contains p.1)).isEmpty <;> simp
        rw [filterBlock_some_kept f entries h' h2'] at hb
        have hfe : entries.filter (fun p => f.contains p.1) = [] :=
          Option.some.inj hb
        rw [hfe] at h2'
        simp at h2'

/-- `filter_sparse_fields` keeps the `type` member. -/
theorem filter_sparse_fields_rtype {α : Type} (item : ResourceObject α)
    (f : List String) : (filter_sparse_fields item f).rtype = item.rtype := rfl

/-- `filter_sparse_fields` keeps the `id` member. -/
theorem filter_sparse_fields_rid {α : Type} (item : ResourceObject α)
    (f : List String) : (filter_sparse_fields item f).rid = item.rid := rfl

/-- `filter_sparse_fields` is idempotent for a fixed field list. -/
theorem filter_sparse_fields_idem {α : Type} (item : ResourceObject α)
    (f : List String) :
    filter_sparse_fields (filter_sparse_fields item f) f =
      filter_sparse_fields item f := by
  simp [filter_sparse_fields, filterBlock_idem]

/-- The per-object sparse-fields step is idempotent. -/
theorem sparse_item_idem {α : Type} (sf : List (String × List String))
    (item : ResourceObject α) :
    sparse_item sf (sparse_item sf item) = sparse_item sf item := by
  cases h : sf.lookup item.rtype with
  | none => simp [sparse_item, h]
  | some fields =>
    simp only [sparse_item, h]
    rw [filter_sparse_fields_rtype, h]
    exact filter_sparse_fields_idem item fields

/-- Mapping the sparse-fields step over `data` twice equals mapping it
once. -/
theorem mapDataField_idem {α : Type} (sf : List (String × List String))
    (d : DataField α) :
    mapDataField (sparse_item sf) (mapDataField (sparse_item sf) d) =
      mapDataField (sparse_item sf) d := by
  cases d with
  | null => rfl
  | single r => simp [mapDataField, sparse_item_idem]
  | multiple rs =>
    simp only [mapDataField, DataField.multiple.injEq]
    rw [List.map_map]
    exact List.map_congr_left (fun a _ => sparse_item_idem sf a)

/-- Unfolding equation for `newIncludedOf` on a present `included`. -/
theorem newIncludedOf_some {α : Type} (sf : List (String × List String))
    (l : List (ResourceObject α)) :
    newIncludedOf sf (some l) =
      if l.isEmpty then [] else l.map (sparse_item sf) := rfl

/-- Unfolding equation for `includedRule` on a present `included`. -/
theorem includedRule_some {α : Type} (sf : List (String × List String))
    (l : List (ResourceObject α)) :
    includedRule sf (some l) =
      if l.isEmpty then some l else some (l.map (sparse_item sf)) := rfl

/-- The two-step `included` computation of `process_sparse_fields`
agrees with the collapsed write-back rule. -/
theorem outIncludedOf_eq_includedRule {α : Type}
    (sf : List (String × List String))
    (inc : Option (List (ResourceObject α))) :
    outIncludedOf sf inc = includedRule sf inc := by
  cases inc with
  | none => rfl
  | some l =>
    by_cases hl : l.isEmpty = true
    · rw [List.isEmpty_iff] at hl
      subst hl
      rfl
    · have hl' : l.isEmpty = false := by
        revert hl
        cases l.isEmpty <;> simp
      have hnew : newIncludedOf sf (some l) = l.map (sparse_item sf) := by
        rw [newIncludedOf_some, if_neg (by rw [hl']; exact Bool.false_ne_true)]
      have hl2 : (l.map (sparse_item sf)).isEmpty = false := by
        rw [isEmpty_map, hl']
      unfold outIncludedOf
      rw [hnew, if_neg (by rw [hl2]; exact Bool.false_ne_true), includedRule_some,
        if_neg (by rw [hl']; exact Bool.false_ne_true)]

/-- The `included` write-back rule is idempotent. -/
theorem includedRule_idem {α : Type} (sf : List (String × List String))
    (inc : Option (List (ResourceObject α))) :
    includedRule sf (includedRule sf inc) = includedRule sf inc := by
  cases inc with
  | none => rfl
  | some l =>
    by_cases hl : l.isEmpty = true
    · rw [List.isEmpty_iff] at hl
      subst hl
      rfl
    · have hl' : l.isEmpty = false := by
        revert hl
        cases l.isEmpty <;> simp
      have hl2 : (l.map (sparse_item sf)).isEmpty = false := by
        rw [isEmpty_map, hl']
      have hmm : (l.map (sparse_item sf)).map (sparse_item sf) =
          l.map (sparse_item sf) := by
        rw [List.map_map]
        exact List.map_congr_left (fun a _ => sparse_item_idem sf a)
      have h1 : includedRule sf (some l) = some (l.map (sparse_item sf)) := by
        rw [includedRule_some, if_neg (by rw [hl']; exact Bool.false_ne_true)]
      rw [h1, includedRule_some, if_neg (by rw [hl2]; exact Bool.false_ne_true), hmm]

/-- With a mismatched `many` flag on a truthy `data`, the Python code
raises a `TypeError`, modelled as `none`. -/
theorem process_sparse_fields_mismatch {α : Type} (doc : Document α)
    (many : Bool) (sf : List (String × List String))
    (hg : (sf.isEmpty || !doc.data.truthy) = false)
    (hm : dataMatch many doc.data = false) :
    process_sparse_fields doc many sf = none := by
  cases many with
  | true =>
    cases hd : doc.data with
    | null =>
      rw [hd] at hg
      simp [DataField.truthy] at hg
    | single r =>
      unfold process_sparse_fields
      rw [hd] at hg ⊢
      rw [if_neg (by simp [hg])]
    | multiple rs =>
      rw [hd] at hm hg
      simp [dataMatch] at hm
      simp [DataField.truthy, hm] at hg
  | false =>
    cases hd : doc.data with
    | null =>
      rw [hd] at hg
      simp [DataField.truthy] at hg
    | single r =>
      rw [hd] at hm
      simp [dataMatch] at hm
    | multiple rs =>
      unfold process_sparse_fields
      rw [hd] at hg ⊢
      rw [if_neg (by simp [hg])]

/-- Characterization of the non-trivial branch of
`process_sparse_fields`: with a non-empty mapping and a truthy,
shape-matching `data`, the result maps `sparse_item` over `data` and
applies the `included` write-back rule. -/
theorem process_sparse_fields_char {α : Type} (doc : Document α)
    (many : Bool) (sf : List (String × List String)) (hsf : sf ≠ [])
    (hmatch : dataMatch many doc.data = true) :
    process_sparse_fields doc many sf = some
      { data := mapDataField (sparse_item sf) doc.data
        included := includedRule sf doc.included } := by
  have hsf' : sf.isEmpty = false := by
    cases sf with
    | nil => exact absurd rfl hsf
    | cons a t => rfl
  cases many with
  | true =>
    cases hd : doc.data with
    | null => rw [hd] at hmatch; simp [dataMatch] at hmatch
    | single r => rw [hd] at hmatch; simp [dataMatch] at hmatch
    | multiple rs =>
      rw [hd] at hmatch
      simp only [dataMatch] at hmatch
      unfold process_sparse_fields
      rw [hd]
      rw [if_neg (by simp [hsf', DataField.truthy, hmatch])]
      rw [outIncludedOf_eq_includedRule]
      rfl
  | false =>
    cases hd : doc.data with
    | null => rw [hd] at hmatch; simp [dataMatch] at hmatch
    | single r =>
      unfold process_sparse_fields
      rw [hd]
      rw [if_neg (by simp [hsf', DataField.truthy])]
      rw [outIncludedOf_eq_includedRule]
      rfl
    | multiple rs => rw [hd] at hmatch; simp [dataMatch] at hmatch

/-- C6 counterexample: with a falsy top-level `data` (here an empty
list), `process_sparse_fields` returns the document unchanged, so an
`included` resource object whose `type` is a key of the mapping retains
an attribute that is not in the mapping's field list — the claim's
universal filtering of `included` fails. -/
theorem sparse_fields_falsy_data_counterexample :
    process_sparse_fields
      ({ data := .multiple []
         included := some [{ rtype := "t", rid := 1
                             attributes := some [("a", 2)]
                             relationships := none }] } : Document Nat)
      true [("t", ["b"])] =
      some { data := .multiple []
             included := some [{ rtype := "t", rid := 1
                                 attributes := some [("a", 2)]
                                 relationships := none }] } ∧
    ([("t", ["b"])].lookup "t" = some ["b"]) ∧
    (["b"].contains "a" = false) := by
  refine ⟨by decide, by decide, by decide⟩

/-- C6 amended: provided the sparse-fields mapping is non-empty and the
document's top-level `data` is present, non-empty and of the shape the
`many` flag expects, each resource object in `data` and in a non-empty
`included` whose `type` is a key of the mapping retains only the
attributes and relationships named in the mapping's field list; a block
that becomes empty is removed from the object entirely (never left as
`{}`); resource objects whose type is not a key, and the `id`/`type`
members of every object, are unchanged. (When the mapping is empty or
`data` is absent/null/empty, the document — `included` too — is returned
unchanged.) -/
theorem sparse_fields_filtering_spec :
    ∀ (α : Type) (doc : Document α) (many : Bool)
      (sf : List (String × List String)),
      sf ≠ [] → dataMatch many doc.data = true →
      (process_sparse_fields doc many sf = some
        { data := mapDataField (sparse_item sf) doc.data
          included := includedRule sf doc.included }) ∧
      (∀ item : ResourceObject α, sf.lookup item.rtype = none →
        sparse_item sf item = item) ∧
      (∀ (item : ResourceObject α) (fields : List String),
        sf.lookup item.rtype = some fields →
        (sparse_item sf item).rtype = item.rtype ∧
        (sparse_item sf item).rid = item.rid ∧
        (∀ p ∈ (sparse_item sf item).attributes.getD [],
          fields.contains p.1 = true ∧ p ∈ item.attributes.getD []) ∧
        (∀ p ∈ (sparse_item sf item).relationships.getD [],
          fields.contains p.1 = true ∧ p ∈ item.relationships.getD []) ∧
        (∀ l, (sparse_item sf item).attributes = some l → l = [] →
          item.attributes = some []) ∧
        (∀ l, (sparse_item sf item).relationships = some l → l = [] →
          item.relationships = some [])) := by
  intro α doc many sf hsf hmatch
  refine ⟨process_sparse_fields_char doc many sf hsf hmatch, ?_, ?_⟩
  · intro item h
    simp [sparse_item, h]
  · intro item fields h
    have hitem : sparse_item sf item = filter_sparse_fields item fields := by
      simp [sparse_item, h]
    rw [hitem]
    refine ⟨rfl, rfl, ?_, ?_, ?_, ?_⟩
    · exact fun p hp => filterBlock_mem fields item.attributes p hp
    · exact fun p hp => filterBlock_mem fields item.relationships p hp
    · exact fun l hb hl => filterBlock_no_new_empty fields item.attributes l hb hl
    · exact fun l hb hl => filterBlock_no_new_empty fields item.relationships l hb hl

/-- Witness for C6 amended: a single-object document with one matching
attribute, one dropped attribute and one dropped (hence removed)
relationships block, plus an `included` object of an unmapped type that
passes through unchanged. -/
theorem sparse_fields_filtering_spec_witness :
    process_sparse_fields
      ({ data := .single { rtype := "t", rid := 1
                           attributes := some [("a", 2), ("b", 3)]
                           relationships := some [("r", 4)] }
         included := some [{ rtype := "u", rid := 5
                             attributes := some [("x", 6)]
                             relationships := none }] } : Document Nat)
      false [("t", ["a"])] =
      some { data := .single { rtype := "t", rid := 1
                               attributes := some [("a", 2)]
                               relationships := none }
             included := some [{ rtype := "u", rid := 5
                                 attributes := some [("x", 6)]
                                 relationships := none }] } := by
  have h := (sparse_fields_filtering_spec Nat
    { data := .single { rtype := "t", rid := 1
                        attributes := some [("a", 2), ("b", 3)]
                        relationships := some [("r", 4)] }
      included := some [{ rtype := "u", rid := 5
                          attributes := some [("x", 6)]
                          relationships := none }] }
    false [("t", ["a"])] (by decide) (by decide)).1
  rw [h]
  rfl

/-- C9: sparse-field processing is idempotent — applying
`process_sparse_fields` twice with the same `many` flag and mapping
equals applying it once — and the per-object step touches only resource
objects whose type is named in the mapping, leaving objects of unrelated
types equal to their input. -/
theorem sparse_fields_idempotent :
    ∀ (α : Type) (doc : Document α) (many : Bool)
      (sf : List (String × List String)) (doc2 : Document α),
      (process_sparse_fields doc many sf = some doc2 →
        process_sparse_fields doc2 many sf = some doc2) ∧
      (∀ item : ResourceObject α, sf.lookup item.rtype = none →
        sparse_item sf item = item) := by
  intro α doc many sf doc2
  constructor
  · intro h
    by_cases hguard : (sf.isEmpty || !doc.data.truthy) = true
    · unfold process_sparse_fields at h
      rw [if_pos hguard] at h
      injection h with h
      subst h
      unfold process_sparse_fields
      rw [if_pos hguard]
    · have hg : (sf.isEmpty || !doc.data.truthy) = false := by
        revert hguard
        cases (sf.isEmpty || !doc.data.truthy) <;> simp
      have hsf : sf ≠ [] := by
        intro hnil
        subst hnil
        simp at hg
      have hmatch : dataMatch many doc.data = true := by
        by_contra hm
        have hm' : dataMatch many doc.data = false := by
          revert hm
          cases (dataMatch many doc.data) <;> simp
        rw [process_sparse_fields_mismatch doc many sf hg hm'] at h
        cases h
      rw [process_sparse_fields_char doc many sf hsf hmatch] at h
      injection h with h
      subst h
      have hmatch2 : dataMatch many (mapDataField (sparse_item sf) doc.data)
          = true := by
        cases many with
        | true =>
          cases hd : doc.data with
          | null => rw [hd] at hmatch; simp [dataMatch] at hmatch
          | single r => rw [hd] at hmatch; simp [dataMatch] at hmatch
          | multiple rs =>
            rw [hd] at hmatch
            simp only [dataMatch] at hmatch
            simpa [mapDataField, dataMatch, isEmpty_map] using hmatch
        | false =>
          cases hd : doc.data with
          | null => rw [hd] at hmatch; simp [dataMatch] at hmatch
          | single r => rfl
          | multiple rs => rw [hd] at hmatch; simp [dataMatch] at hmatch
      rw [process_sparse_fields_char _ many sf hsf hmatch2]
      simp only [Option.some.injEq, Document.mk.injEq]
      exact ⟨mapDataField_idem sf doc.data, includedRule_idem sf doc.included⟩
  · intro item hitem
    simp [sparse_item, hitem]

/-- Witness for C9: a document already processed once is a fixed point
of `process_sparse_fields`. -/
theorem sparse_fields_idempotent_witness :
    process_sparse_fields
      ({ data := .single { rtype := "t", rid := 1
                           attributes := some [("a", 2)]
                           relationships := none }
         included := none } : Document Nat)
      false [("t", ["a"])] =
      some { data := .single { rtype := "t", rid := 1
                               attributes := some [("a", 2)]
                               relationships := none }
             included := none } :=
  (sparse_fields_idempotent Nat
    { data := .single { rtype := "t", rid := 1
                        attributes := some [("a", 2), ("b", 3)]
                        relationships := none }
      included := none }
    false [("t", ["a"])]
    { data := .single { rtype := "t", rid := 1
                        attributes := some [("a", 2)]
                        relationships := none }
      included := none }).1 (by decide)

end StarletteJsonapi
